import Mathlib

/-!
Verification of the windowed text-rendering cache of
kivy-garden/garden.recycleview (`label.py`, class `LazyLabel`).

Coordinates and sizes are modelled as exact rationals (`ℚ`).  The text-layout
engine (`kivy.core.text`) is an external collaborator: its outputs for one
`render()` call (logical size, cached line list, internal height, default line
options) are supplied as an `EngineResult` oracle value.  Host (recycler)
effects are recorded in the result records.
-/

set_option maxRecDepth 4000

/-- Python whitespace characters, as recognised by `str.strip()`. -/
def pyIsSpace (c : Char) : Bool :=
  c = ' ' ∨ c = '\t' ∨ c = '\n' ∨ c = '\r' ∨ c = '\x0b' ∨ c = '\x0c'

/-- Python `str.strip()`: remove leading and trailing whitespace. -/
def pyStrip (s : String) : String :=
  String.mk (((s.data.dropWhile pyIsSpace).reverse.dropWhile pyIsSpace).reverse)

/-- Python `int(...)` applied to a rational: truncation toward zero. -/
def pyint (q : ℚ) : ℚ :=
  if 0 ≤ q then (⌊q⌋ : ℚ) else (⌈q⌉ : ℚ)

/-- One layout line as produced by the text-layout engine; `h` is its
rendered height (`line.h` in the source). -/
structure CoreLine where
  h : ℚ
deriving Repr, DecidableEq

/-- The generator `accumulate_lines(lines, y)` from `label.py` (lines 51-55): yields the
cumulative top-edge y of every line followed by the bottom edge of the last
line. -/
def accumulate_lines : List CoreLine → ℚ → List ℚ
  | [], y => [y]
  | line :: rest, y => y :: accumulate_lines rest (y + line.h)

/-- CPython `bisect.bisect_left(a, x, lo, hi)` inner loop: binary search for
the leftmost insertion point of `x` in `a[lo:hi]`. -/
def bisect_left_aux (a : List ℚ) (x : ℚ) (lo hi : ℕ) : ℕ :=
  if lo < hi then
    if a.getD ((lo + hi) / 2) 0 < x then bisect_left_aux a x ((lo + hi) / 2 + 1) hi
    else bisect_left_aux a x lo ((lo + hi) / 2)
  else lo
termination_by hi - lo
decreasing_by
  all_goals omega

/-- Python `bisect_left(a, x, lo=lo)` with the default `hi = len(a)`. -/
def bisect_left (a : List ℚ) (x : ℚ) (lo : ℕ) : ℕ :=
  bisect_left_aux a x lo a.length

/-- A non-decreasing offsets table, phrased on `getD` lookups. -/
def sortedTable (a : List ℚ) : Prop :=
  ∀ i j : ℕ, i ≤ j → j < a.length → a.getD i 0 ≤ a.getD j 0

/-- The visible-line range computation of `refresh_view_layout`
(`label.py` lines 255-260): two `bisect_left` searches, then the start is
decremented (clamped at zero, matching truncated `ℕ` subtraction) and the end
incremented. -/
def locate_range (a : List ℚ) (y_low y_high : ℚ) : ℕ × ℕ :=
  let s := bisect_left a y_low 0
  let e := bisect_left a y_high s
  (s - 1, e + 1)

/-- The default line options record produced by the engine
(`label._default_line_options(lines)`): the fields `texture_update` and the
rebuild branch read. -/
structure LineOptions where
  valign : String
  padding_y : ℚ
  mipmap : Bool
deriving Repr, DecidableEq

/-- The outputs of one `label.render()` call of the external text-layout
engine: logical size `sz`, the cached line list, `label._internal_size[1]`,
and the default line options (`none` when no text was renderable). -/
structure EngineResult where
  sz : ℚ × ℚ
  cached_lines : List CoreLine
  internal_h : ℚ
  options : Option LineOptions
deriving Repr, DecidableEq

/-- The state of one `LazyLabel` widget.  `text` is the widget's `text`
property, `label_text` the core label's `text` (they coincide until the
markup branch of `texture_update` rewrites the latter).  `color_hex` is the
resolved colour string `get_hex_from_color(self.color)` (a host utility).
The texture object is modelled by an identity counter so that recreation
versus reuse is observable: `texture = some i` holds the `i`-th texture ever
created, and `next_tex_id` is the allocator counter. -/
structure LazyLabel where
  text : String
  label_text : String
  halign : String
  strip : Bool
  markup : Bool
  color_hex : String
  size_to_texture_height : Bool
  constrain_text_width : Bool
  trigger_texture : Bool
  text_size0 : ℚ
  width : ℚ
  height : ℚ
  x : ℚ
  y : ℚ
  texture : Option ℕ
  next_tex_id : ℕ
  texture_size : ℚ × ℚ
  true_texture_size : ℚ × ℚ
  lines_pos : Option (List ℚ)
  last_line_top : ℚ
  last_rendered_view : Option (ℚ × ℚ)
  default_options : Option LineOptions
  texture_y : ℚ
  texture_pos_y : ℚ
  last_height : ℚ
  cached_lines : List CoreLine
deriving DecidableEq

/-- The host `RecycleView` as seen by this item: the configured size key, the
per-item data records (association lists), and flags recording the refresh
requests the item has issued. -/
structure RecycleView where
  key_size : String
  data : List (List (String × ℚ))
  asked_refresh_from_data : Bool
  asked_refresh_viewport : Bool
deriving DecidableEq

/-- Assignment `record[k] = v` on an association-list data record. -/
def set_key : List (String × ℚ) → String → ℚ → List (String × ℚ)
  | [], k, v => [(k, v)]
  | (k', v') :: rest, k, v =>
    if k' = k then (k, v) :: rest else (k', v') :: set_key rest k v

/-- Lookup `record[k]` on an association-list data record. -/
def get_key : List (String × ℚ) → String → Option ℚ
  | [], _ => none
  | (k', v') :: rest, k => if k' = k then some v' else get_key rest k

/-- The test `self.halign[-1] == 'y'` (true exactly for `justify` among Kivy's
alignment names). -/
def halign_last_y (h : String) : Bool :=
  h.back = 'y'

/-- The emptiness test opening `texture_update` (`label.py` lines 129-131):
no text, or text that strips to nothing while justify alignment or the strip
flag make stripping active. -/
def empty_text_policy (s : LazyLabel) : Prop :=
  s.label_text = "" ∨
    ((halign_last_y s.halign = true ∨ s.strip = true) ∧ pyStrip s.label_text = "")

instance (s : LazyLabel) : Decidable (empty_text_policy s) := by
  unfold empty_text_policy
  infer_instance

/-- The measure pass `texture_update` (`label.py` lines 108-175).  Resets the derived state,
short-circuits on empty text, rewrites the core label's text in markup mode,
and stores the engine's measurement.  No pixels are rasterized here. -/
def texture_update (s : LazyLabel) (er : EngineResult) : LazyLabel :=
  let s := { s with texture := none, lines_pos := none, last_height := 0,
                    true_texture_size := ((0 : ℚ), (0 : ℚ)) }
  if empty_text_policy s then
    { s with texture_size := (0, 0) }
  else
    let s :=
      if s.markup = true then
        let t := if halign_last_y s.halign = true ∨ s.strip = true then pyStrip s.text
                 else s.text
        { s with label_text := "[color=" ++ s.color_hex ++ "]" ++ t ++ "[/color]" }
      else s
    let s := { s with cached_lines := er.cached_lines }
    if er.sz.1 ≤ 1 ∨ er.sz.2 ≤ 1 then
      { s with texture_size := (0, 0) }
    else
      match er.options with
      | none => { s with default_options := none, texture_size := (0, 0) }
      | some opts =>
        let ypad := opts.padding_y
        let yy := if opts.valign = "bottom" then er.sz.2 - er.internal_h + ypad
                  else if opts.valign = "middle" then
                    pyint ((er.sz.2 - er.internal_h) / 2 + ypad)
                  else ypad
        { s with default_options := some opts, texture_size := er.sz,
                 texture_y := yy }

/-- The attach pass `refresh_view_attrs` (`label.py` lines 181-188).  The `super()` call
applies the new data record's values to the widget's properties; that code
lives in the host mixin (`recycleview.py`, not under `src/`), so the incoming
state is taken to be the state with the new attributes already applied
(attribute application touches none of the fields written below).  The
`_label_cache`/`_rv` bookkeeping is unused by the behaviour specified and is
omitted. -/
def refresh_view_attrs (s : LazyLabel) (rv : RecycleView) :
    LazyLabel × RecycleView :=
  ({ s with lines_pos := none },
   if s.size_to_texture_height = true ∧ rv.key_size = "" then
     { rv with key_size := "height" }
   else rv)

/-- The viewport rectangle `(x1, y1, x2, y2)` handed to every layout pass, in
scroll-space coordinates (y grows upward, `y2` is the top edge). -/
structure Viewport where
  x1 : ℚ
  y1 : ℚ
  x2 : ℚ
  y2 : ℚ
deriving Repr, DecidableEq

/-- The outcome of one `refresh_view_layout` call: the final widget state, the
host state, and instrumentation flags recording which phases ran.  `aborted`
models raising `LayoutChangeException`; `measured` records that
`texture_update` ran; `early_empty` the `texture_size == (0, 0)` return;
`rebuilt` the texture-window rebuild branch; `coverage_ran` that the
coverage test was evaluated; `rendered` that `render_lines` rasterized the
slice `[render_lo, render_hi)`. -/
structure LayoutResult where
  state : LazyLabel
  rv : RecycleView
  aborted : Bool
  measured : Bool
  early_empty : Bool
  rebuilt : Bool
  coverage_ran : Bool
  rendered : Bool
  render_lo : ℕ
  render_hi : ℕ
deriving DecidableEq

/-- The rebuild test of `refresh_view_layout` (`label.py` lines 222-223): no
line table yet, widget height changed, or the existing window exceeds three
viewport heights by more than the 0.01 epsilon. -/
def rebuild_needed (s : LazyLabel) (height view_height : ℚ) : Prop :=
  s.lines_pos = none ∨ s.last_height ≠ height ∨
    s.true_texture_size.2 - 3 * view_height > 1/100

instance (s : LazyLabel) (height view_height : ℚ) :
    Decidable (rebuild_needed s height view_height) := by
  unfold rebuild_needed
  infer_instance

/-- The coverage test of `refresh_view_layout` (`label.py` line 252):
`ylow - .1 >= ty1 >= ty2 >= yhigh + .1`, where `(ylow, yhigh)` is the stored
covered range and `[ty2, ty1]` the current viewport in widget-top-relative
coordinates. -/
def coverage_ok (ylow yhigh ty1 ty2 : ℚ) : Prop :=
  ylow - 1/10 ≥ ty1 ∧ ty1 ≥ ty2 ∧ ty2 ≥ yhigh + 1/10

instance (ylow yhigh ty1 ty2 : ℚ) : Decidable (coverage_ok ylow yhigh ty1 ty2) := by
  unfold coverage_ok
  infer_instance

/-- The texture-window rebuild branch (`label.py` lines 224-242): cap the
window height at three viewport heights, anchor the line offset table (the
popped sentinel becomes `_last_line_top`), create a fresh texture object, and
reset the covered-range bookkeeping to the empty sentinel `(-1, 0)`. -/
def do_rebuild (s : LazyLabel) (height view_height : ℚ) : LazyLabel :=
  let sz := s.texture_size
  let tex_height := min sz.2 (3 * view_height)
  let yy := s.texture_y + (s.height - sz.2) / 2
  let lp := accumulate_lines s.cached_lines yy
  { s with true_texture_size := (sz.1, tex_height),
           lines_pos := some lp.dropLast,
           last_line_top := lp.getLastD 0,
           texture := some s.next_tex_id,
           next_tex_id := s.next_tex_id + 1,
           last_rendered_view := some ((-1 : ℚ), (0 : ℚ)),
           last_height := height }

/-- The coverage test and partial re-render (`label.py` lines 244-276).  A
skipped render leaves the state untouched; a render updates
`_texture_pos_y` and the covered-range bookkeeping and rasterizes the line
slice found by the two `bisect_left` searches.  (The final `blit_data` guard
concerns only the handing of the raster buffer to the GPU and is external.)
The stored covered range is `Option`-valued in the model because the class
default is `None`; every path reaching this phase has set it (the rebuild
branch runs first whenever no table exists), and the unreachable `none` case
is totalized with the empty sentinel. -/
def render_phase (s : LazyLabel) (rv : RecycleView) (measured : Bool)
    (vp : Viewport) (reb : Bool) : LayoutResult :=
  let view_height := vp.y2 - vp.y1
  let posl := s.lines_pos.getD []
  let lrv := s.last_rendered_view.getD ((-1 : ℚ), (0 : ℚ))
  let ty1 := s.height - (vp.y1 - s.y)
  let ty2 := s.height - (vp.y2 - s.y)
  if coverage_ok lrv.1 lrv.2 ty1 ty2 then
    { state := s, rv := rv, aborted := false, measured := measured,
      early_empty := false, rebuilt := reb, coverage_ran := true,
      rendered := false, render_lo := 0, render_hi := 0 }
  else
    let si := bisect_left posl (ty2 - view_height) 0
    let ei := bisect_left posl (ty1 + view_height) si
    { state := { s with texture_pos_y := vp.y1 - view_height,
                        last_rendered_view := some (ty1 + view_height, ty2 - view_height) },
      rv := rv, aborted := false, measured := measured, early_empty := false,
      rebuilt := reb, coverage_ran := true, rendered := true,
      render_lo := si - 1, render_hi := ei + 1 }

/-- The windowed texture manager: `refresh_view_layout` after the re-measure
coordination (`label.py` lines 214-276).  Short-circuits on an empty
measurement, rebuilds the bounded texture window when needed, then runs the
coverage test and possibly a partial re-render. -/
def layout_render (s : LazyLabel) (rv : RecycleView) (measured : Bool)
    (height : ℚ) (vp : Viewport) : LayoutResult :=
  if s.texture_size = ((0 : ℚ), (0 : ℚ)) then
    { state := s, rv := rv, aborted := false, measured := measured,
      early_empty := true, rebuilt := false, coverage_ran := false,
      rendered := false, render_lo := 0, render_hi := 0 }
  else
    let view_height := vp.y2 - vp.y1
    if rebuild_needed s height view_height then
      render_phase (do_rebuild s height view_height) rv measured vp true
    else
      render_phase s rv measured vp false

/-- The `super().refresh_view_layout` geometry application plus the
`constrain_text_width` adjustment (`label.py` lines 190-196).  The host mixin
(`recycleview.py`, not under `src/`) stores the assigned pos/size on the
widget; modelled from the spec: the layout pass supplies the assigned
geometry.  Mutating `text_size` dispatches the Kivy `Label`'s texture
trigger, which is why the following lines of the source can observe
`_trigger_texture.is_triggered`. -/
def apply_geometry (s : LazyLabel) (p q : ℚ × ℚ) : LazyLabel :=
  let s := { s with x := p.1, y := p.2, width := q.1, height := q.2 }
  if s.constrain_text_width = true ∧ s.text_size0 ≠ s.width then
    { s with text_size0 := s.width, trigger_texture := true }
  else s

/-- The layout pass `refresh_view_layout` (`label.py` lines 190-276).  Applies the assigned
geometry, runs the pending re-measure, and either aborts with
`LayoutChangeException` after writing the corrected height into the host's
data record (requesting a content-extent refresh), or proceeds to the
windowed texture manager. -/
def refresh_view_layout (s0 : LazyLabel) (rv : RecycleView) (index : ℕ)
    (p q : ℚ × ℚ) (vp : Viewport) (er : EngineResult) : LayoutResult :=
  let s := apply_geometry s0 p q
  let height := q.2
  if s.trigger_texture = true ∨
      (height ≠ s.texture_size.2 ∧ s.size_to_texture_height = true) then
    let s1 := texture_update { s with trigger_texture := false } er
    if s1.size_to_texture_height = true ∧ height ≠ s1.texture_size.2 then
      { state := s1,
        rv := { rv with
                  data := rv.data.set index
                    (set_key (rv.data.getD index []) rv.key_size s1.texture_size.2),
                  asked_refresh_from_data := true },
        aborted := true, measured := true, early_empty := false,
        rebuilt := false, coverage_ran := false, rendered := false,
        render_lo := 0, render_hi := 0 }
    else
      layout_render s1 rv true height vp
  else
    layout_render s rv false height vp

/-- The coverage test as the SPEC's words state it (§4.4 Step 2): the stored
covered range `[yhigh, ylow]` fully contains the viewport `[ty2, ty1]`
*extended by one full viewport height on each side*, within a 0.1-unit
tolerance.  This definition follows the spec's words (tolerance taken in the
lenient direction), for comparison against the source's `coverage_ok`. -/
def spec_claimed_coverage (ylow yhigh ty1 ty2 view_height : ℚ) : Prop :=
  yhigh - 1/10 ≤ ty2 - view_height ∧ ty1 + view_height ≤ ylow + 1/10

instance (ylow yhigh ty1 ty2 vh : ℚ) :
    Decidable (spec_claimed_coverage ylow yhigh ty1 ty2 vh) := by
  unfold spec_claimed_coverage
  infer_instance

/-! ### Concrete fixtures used by witnesses and counterexamples -/

/-- Default line options of a plain top-aligned label. -/
def sampleOptions : LineOptions :=
  { valign := "top", padding_y := 0, mipmap := false }

/-- Ten layout lines of height 20 (total logical height 200). -/
def sampleLines10 : List CoreLine := List.replicate 10 ⟨20⟩

/-- A freshly measured item: ten 20-unit lines, logical size `(50, 200)`, no
texture window built yet, no pending trigger, fixed-height configuration. -/
def sampleMeasuredState : LazyLabel :=
  { text := "hello", label_text := "hello", halign := "left", strip := false,
    markup := false, color_hex := "ffffffff", size_to_texture_height := false,
    constrain_text_width := false, trigger_texture := false, text_size0 := 50,
    width := 50, height := 100, x := 0, y := 0, texture := none,
    next_tex_id := 0, texture_size := (50, 200), true_texture_size := (0, 0),
    lines_pos := none, last_line_top := 0, last_rendered_view := none,
    default_options := some sampleOptions, texture_y := 0, texture_pos_y := 0,
    last_height := 0, cached_lines := sampleLines10 }

/-- A host with one data record. -/
def sampleRV : RecycleView :=
  { key_size := "height", data := [[("height", 100)]],
    asked_refresh_from_data := false, asked_refresh_viewport := false }

/-- An engine measurement matching `sampleMeasuredState`. -/
def sampleER : EngineResult :=
  { sz := (50, 200), cached_lines := sampleLines10, internal_h := 200,
    options := some sampleOptions }

/-- The state `sampleMeasuredState` configured as height-follows-content, with a
pending texture trigger. -/
def sampleGrowState : LazyLabel :=
  { sampleMeasuredState with
      size_to_texture_height := true
      trigger_texture := true }

/-- A state after `sampleMeasuredState` was laid out once against the
viewport `(0, 0, 50, 10)`: the window is built (capped at 30 = 3 x 10), the
line table exists, and the covered range is `(110, 80)`. -/
def sampleRenderedState : LazyLabel :=
  { sampleMeasuredState with
      true_texture_size := (50, 30)
      lines_pos := some (accumulate_lines sampleLines10 (-50)).dropLast
      last_line_top := 150
      texture := some 0
      next_tex_id := 1
      last_rendered_view := some (110, 80)
      last_height := 100 }

/-- An empty-text state: whitespace-only text with the strip flag active. -/
def sampleEmptyState : LazyLabel :=
  { sampleMeasuredState with
      text := "  "
      label_text := "  "
      strip := true }

/-- A degenerate engine result: positive text but layout size of height one
unit. -/
def sampleDegenerateER : EngineResult :=
  { sz := (50, 1), cached_lines := [], internal_h := 1,
    options := some sampleOptions }

/-- A markup-mode state whose text carries trailing whitespace, with the
strip flag active. -/
def sampleMarkupState : LazyLabel :=
  { sampleMeasuredState with
      markup := true
      strip := true
      text := "hi  "
      label_text := "hi  " }

/-! ## Properties of `bisect_left` -/

/-- The binary search never moves below its lower bound. -/
theorem le_bisect_left_aux (a : List ℚ) (x : ℚ) :
    ∀ n lo hi, hi - lo ≤ n → lo ≤ bisect_left_aux a x lo hi := by
  intro n
  induction n with
  | zero =>
    intro lo hi h
    rw [bisect_left_aux]
    have : ¬ lo < hi := by omega
    simp [this]
  | succ n ih =>
    intro lo hi h
    rw [bisect_left_aux]
    split_ifs with h1 h2
    · exact le_trans (by omega) (ih ((lo + hi) / 2 + 1) hi (by omega))
    · exact ih lo ((lo + hi) / 2) (by omega)
    · exact le_refl lo

/-- The binary search never moves above its upper bound. -/
theorem bisect_left_aux_le (a : List ℚ) (x : ℚ) :
    ∀ n lo hi, hi - lo ≤ n → lo ≤ hi → bisect_left_aux a x lo hi ≤ hi := by
  intro n
  induction n with
  | zero =>
    intro lo hi h hle
    rw [bisect_left_aux]
    have : ¬ lo < hi := by omega
    simp [this, hle]
  | succ n ih =>
    intro lo hi h hle
    rw [bisect_left_aux]
    split_ifs with h1 h2
    · exact ih ((lo + hi) / 2 + 1) hi (by omega) (by omega)
    · exact le_trans (ih lo ((lo + hi) / 2) (by omega) (by omega)) (by omega)
    · exact hle

/-- On a sorted table, every index left of the found insertion point holds a
value strictly below the probe. -/
theorem bisect_left_aux_lt_of_lt (a : List ℚ) (x : ℚ) (hs : sortedTable a) :
    ∀ n lo hi, hi - lo ≤ n → hi ≤ a.length →
      ∀ i, lo ≤ i → i < bisect_left_aux a x lo hi → a.getD i 0 < x := by
  intro n
  induction n with
  | zero =>
    intro lo hi h _ i hlo hi2
    rw [bisect_left_aux] at hi2
    have : ¬ lo < hi := by omega
    simp [this] at hi2
    omega
  | succ n ih =>
    intro lo hi h hlen i hlo hi2
    rw [bisect_left_aux] at hi2
    by_cases h1 : lo < hi
    · simp only [if_pos h1] at hi2
      by_cases h2 : a.getD ((lo + hi) / 2) 0 < x
      · simp only [if_pos h2] at hi2
        by_cases h3 : i ≤ (lo + hi) / 2
        · exact lt_of_le_of_lt (hs i ((lo + hi) / 2) h3 (by omega)) h2
        · exact ih ((lo + hi) / 2 + 1) hi (by omega) hlen i (by omega) hi2
      · simp only [if_neg h2] at hi2
        exact ih lo ((lo + hi) / 2) (by omega) (by omega) i hlo hi2
    · simp [h1] at hi2
      omega

/-- When the binary search answers an in-range index, the value there is at
least the probe (no sortedness needed). -/
theorem le_getD_bisect_left_aux (a : List ℚ) (x : ℚ) :
    ∀ n lo hi, hi - lo ≤ n →
      bisect_left_aux a x lo hi < hi → x ≤ a.getD (bisect_left_aux a x lo hi) 0 := by
  intro n
  induction n with
  | zero =>
    intro lo hi h hlt
    rw [bisect_left_aux] at hlt ⊢
    have : ¬ lo < hi := by omega
    simp [this] at hlt
  | succ n ih =>
    intro lo hi h hlt
    rw [bisect_left_aux] at hlt ⊢
    by_cases h1 : lo < hi
    · simp only [if_pos h1] at hlt ⊢
      by_cases h2 : a.getD ((lo + hi) / 2) 0 < x
      · simp only [if_pos h2] at hlt ⊢
        exact ih ((lo + hi) / 2 + 1) hi (by omega) hlt
      · simp only [if_neg h2] at hlt ⊢
        rcases lt_or_eq_of_le
            (bisect_left_aux_le a x n lo ((lo + hi) / 2) (by omega) (by omega)) with
          hcase | hcase
        · exact ih lo ((lo + hi) / 2) (by omega) hcase
        · rw [hcase]
          exact le_of_not_lt h2
    · simp [h1] at hlt

/-! ## Properties of `accumulate_lines` -/

theorem accumulate_lines_length (ls : List CoreLine) (y : ℚ) :
    (accumulate_lines ls y).length = ls.length + 1 := by
  induction ls generalizing y with
  | nil => simp [accumulate_lines]
  | cons l rest ih => simp [accumulate_lines, ih]

theorem accumulate_lines_ne_nil (ls : List CoreLine) (y : ℚ) :
    accumulate_lines ls y ≠ [] := by
  cases ls <;> simp [accumulate_lines]

theorem accumulate_lines_head (ls : List CoreLine) (y : ℚ) :
    (accumulate_lines ls y).head? = some y := by
  cases ls <;> simp [accumulate_lines]

theorem accumulate_lines_getLastD (ls : List CoreLine) (y : ℚ) :
    (accumulate_lines ls y).getLastD 0 = y + (ls.map CoreLine.h).sum := by
  induction ls generalizing y with
  | nil => simp [accumulate_lines]
  | cons l rest ih =>
    rw [accumulate_lines]
    rw [List.getLastD_cons]
    rcases List.exists_cons_of_ne_nil (accumulate_lines_ne_nil rest (y + l.h)) with
      ⟨b, t, hbt⟩
    rw [hbt]
    have := ih (y + l.h)
    rw [hbt] at this
    simp only [List.getLastD_cons] at this ⊢
    rw [this]
    simp [add_assoc]

theorem accumulate_lines_chain (ls : List CoreLine) (y : ℚ)
    (hh : ∀ l ∈ ls, 0 ≤ l.h) :
    List.Chain' (· ≤ ·) (accumulate_lines ls y) := by
  induction ls generalizing y with
  | nil => simp [accumulate_lines]
  | cons l rest ih =>
    rw [accumulate_lines]
    rw [List.chain'_cons']
    constructor
    · intro b hb
      rw [accumulate_lines_head] at hb
      cases hb
      have : 0 ≤ l.h := hh l (List.mem_cons_self l rest)
      linarith
    · exact ih (y + l.h) (fun m hm => hh m (List.mem_cons_of_mem l hm))

theorem getD_eq_get (l : List ℚ) (i : ℕ) (h : i < l.length) :
    l.getD i 0 = l.get ⟨i, h⟩ := by
  simp [List.getD_eq_getElem?_getD, List.getElem?_eq_getElem h]

theorem chain'_le_sortedTable (l : List ℚ) (h : List.Chain' (· ≤ ·) l) :
    sortedTable l := by
  intro i j hij hj
  have hi : i < l.length := lt_of_le_of_lt hij hj
  rw [getD_eq_get l i hi, getD_eq_get l j hj]
  rcases eq_or_lt_of_le hij with rfl | hlt
  · rfl
  · have hp : List.Pairwise (· ≤ ·) l := (List.chain'_iff_pairwise).1 h
    exact List.pairwise_iff_get.1 hp ⟨i, hi⟩ ⟨j, hj⟩ hlt

/-- Claim C5: for every non-empty line sequence with non-negative heights and
every starting y, `accumulate_lines` produces an offsets table that is
monotonically non-decreasing, has length = line count + 1, starts at the
given origin, and whose final sentinel entry is the origin plus the sum of
all line heights. -/
theorem accumulate_lines_table_spec (ls : List CoreLine) (y : ℚ)
    (hne : ls ≠ []) (hh : ∀ l ∈ ls, 0 ≤ l.h) :
    sortedTable (accumulate_lines ls y) ∧
      (accumulate_lines ls y).length = ls.length + 1 ∧
      (accumulate_lines ls y).head? = some y ∧
      (accumulate_lines ls y).getLastD 0 = y + (ls.map CoreLine.h).sum := by
  refine ⟨chain'_le_sortedTable _ (accumulate_lines_chain ls y hh),
    accumulate_lines_length ls y, accumulate_lines_head ls y,
    accumulate_lines_getLastD ls y⟩

/-- Witness for C5 at a concrete input. -/
theorem accumulate_lines_table_spec_witness :
    sortedTable (accumulate_lines [⟨2⟩, ⟨3⟩] 1) ∧
      (accumulate_lines [⟨2⟩, ⟨3⟩] 1).length = 2 + 1 ∧
      (accumulate_lines [⟨2⟩, ⟨3⟩] 1).head? = some 1 ∧
      (accumulate_lines [⟨2⟩, ⟨3⟩] 1).getLastD 0 =
        1 + (([⟨2⟩, ⟨3⟩] : List CoreLine).map CoreLine.h).sum := by
  exact accumulate_lines_table_spec [⟨2⟩, ⟨3⟩] 1 (by simp)
    (by intro l hl; simp only [List.mem_cons, List.not_mem_nil, or_false] at hl
        rcases hl with rfl | rfl <;> norm_num)

/-- Claim C4: on a sorted offsets table with a query window
`[y_low, y_high]`, `y_low ≤ y_high`, the range returned by `locate_range`
never under-covers the window: every line `i` (spanning
`[a[i], a[i+1]]`) that overlaps the window with positive extent — its top
lies strictly above the window's bottom edge (`a[i] < y_high`) and its bottom
reaches the window's top edge (`y_low ≤ a[i+1]`) — satisfies
`start ≤ i < end`. -/
theorem locate_range_covers_window (a : List ℚ) (y_low y_high : ℚ)
    (hs : sortedTable a) (hlh : y_low ≤ y_high) :
    ∀ i : ℕ, i + 1 < a.length → a.getD i 0 < y_high → y_low ≤ a.getD (i + 1) 0 →
      (locate_range a y_low y_high).1 ≤ i ∧ i < (locate_range a y_low y_high).2 := by
  intro i hi hih hil
  simp only [locate_range, bisect_left]
  constructor
  · -- start side: `s0 ≤ i + 1`, hence `s0 - 1 ≤ i`.
    by_contra hcon
    push_neg at hcon
    have hi1 : i + 1 < bisect_left_aux a y_low 0 a.length := by omega
    have := bisect_left_aux_lt_of_lt a y_low hs a.length 0 a.length (by omega)
      (le_refl _) (i + 1) (by omega) hi1
    linarith
  · -- end side: `i ≤ e0`, hence `i < e0 + 1`.
    by_contra hcon
    push_neg at hcon
    set s0 := bisect_left_aux a y_low 0 a.length with hs0
    set e0 := bisect_left_aux a y_high s0 a.length with he0
    have he0i : e0 < i := by omega
    have he0len : e0 < a.length := by omega
    have hx : y_high ≤ a.getD e0 0 :=
      le_getD_bisect_left_aux a y_high a.length s0 a.length (by omega) he0len
    have hmono : a.getD e0 0 ≤ a.getD i 0 := hs e0 i (by omega) (by omega)
    linarith

/-! ## Structural lemmas about the layout pass -/

theorem do_rebuild_fields (s : LazyLabel) (height vh : ℚ) :
    (do_rebuild s height vh).texture_size = s.texture_size ∧
      (do_rebuild s height vh).size_to_texture_height = s.size_to_texture_height ∧
      (do_rebuild s height vh).trigger_texture = s.trigger_texture ∧
      (do_rebuild s height vh).constrain_text_width = s.constrain_text_width ∧
      (do_rebuild s height vh).text_size0 = s.text_size0 ∧
      (do_rebuild s height vh).width = s.width ∧
      (do_rebuild s height vh).height = s.height ∧
      (do_rebuild s height vh).x = s.x ∧
      (do_rebuild s height vh).y = s.y ∧
      (do_rebuild s height vh).cached_lines = s.cached_lines := by
  simp [do_rebuild]

theorem do_rebuild_updates (s : LazyLabel) (height vh : ℚ) :
    (do_rebuild s height vh).lines_pos =
        some (accumulate_lines s.cached_lines
          (s.texture_y + (s.height - s.texture_size.2) / 2)).dropLast ∧
      (do_rebuild s height vh).last_height = height ∧
      (do_rebuild s height vh).true_texture_size =
        (s.texture_size.1, min s.texture_size.2 (3 * vh)) ∧
      (do_rebuild s height vh).texture = some s.next_tex_id ∧
      (do_rebuild s height vh).next_tex_id = s.next_tex_id + 1 ∧
      (do_rebuild s height vh).last_rendered_view = some ((-1 : ℚ), (0 : ℚ)) := by
  simp [do_rebuild]

theorem render_phase_flags (s : LazyLabel) (rv : RecycleView) (m : Bool)
    (vp : Viewport) (reb : Bool) :
    (render_phase s rv m vp reb).aborted = false ∧
      (render_phase s rv m vp reb).measured = m ∧
      (render_phase s rv m vp reb).early_empty = false ∧
      (render_phase s rv m vp reb).rebuilt = reb ∧
      (render_phase s rv m vp reb).coverage_ran = true ∧
      (render_phase s rv m vp reb).rv = rv := by
  simp only [render_phase]
  split <;> simp

theorem render_phase_preserves (s : LazyLabel) (rv : RecycleView) (m : Bool)
    (vp : Viewport) (reb : Bool) :
    (render_phase s rv m vp reb).state.texture_size = s.texture_size ∧
      (render_phase s rv m vp reb).state.true_texture_size = s.true_texture_size ∧
      (render_phase s rv m vp reb).state.size_to_texture_height =
        s.size_to_texture_height ∧
      (render_phase s rv m vp reb).state.trigger_texture = s.trigger_texture ∧
      (render_phase s rv m vp reb).state.constrain_text_width =
        s.constrain_text_width ∧
      (render_phase s rv m vp reb).state.text_size0 = s.text_size0 ∧
      (render_phase s rv m vp reb).state.width = s.width ∧
      (render_phase s rv m vp reb).state.height = s.height ∧
      (render_phase s rv m vp reb).state.x = s.x ∧
      (render_phase s rv m vp reb).state.y = s.y ∧
      (render_phase s rv m vp reb).state.lines_pos = s.lines_pos ∧
      (render_phase s rv m vp reb).state.last_height = s.last_height ∧
      (render_phase s rv m vp reb).state.texture = s.texture ∧
      (render_phase s rv m vp reb).state.cached_lines = s.cached_lines := by
  simp only [render_phase]
  split <;> simp

/-- The coverage test decides rendering: a skipped render happens exactly when
the stored covered range passes `coverage_ok` against the current viewport. -/
theorem render_phase_rendered_iff (s : LazyLabel) (rv : RecycleView) (m : Bool)
    (vp : Viewport) (reb : Bool) :
    (render_phase s rv m vp reb).rendered = false ↔
      coverage_ok (s.last_rendered_view.getD ((-1 : ℚ), (0 : ℚ))).1
        (s.last_rendered_view.getD ((-1 : ℚ), (0 : ℚ))).2
        (s.height - (vp.y1 - s.y)) (s.height - (vp.y2 - s.y)) := by
  simp only [render_phase]
  split <;> simp_all

theorem render_phase_state_of_skip (s : LazyLabel) (rv : RecycleView) (m : Bool)
    (vp : Viewport) (reb : Bool)
    (h : (render_phase s rv m vp reb).rendered = false) :
    (render_phase s rv m vp reb).state = s := by
  simp only [render_phase] at h ⊢
  split at h <;> simp_all

theorem render_phase_lrv_of_rendered (s : LazyLabel) (rv : RecycleView) (m : Bool)
    (vp : Viewport) (reb : Bool)
    (h : (render_phase s rv m vp reb).rendered = true) :
    (render_phase s rv m vp reb).state.last_rendered_view =
      some (s.height - (vp.y1 - s.y) + (vp.y2 - vp.y1),
            s.height - (vp.y2 - s.y) - (vp.y2 - vp.y1)) := by
  simp only [render_phase] at h ⊢
  split at h <;> simp_all

/-- The empty covered-range sentinel `(-1, 0)` never passes the coverage
test. -/
theorem coverage_sentinel_fails (ty1 ty2 : ℚ) :
    ¬ coverage_ok (-1) 0 ty1 ty2 := by
  intro h
  rcases h with ⟨h1, h2, h3⟩
  linarith

theorem layout_render_flags (s : LazyLabel) (rv : RecycleView) (m : Bool)
    (height : ℚ) (vp : Viewport) :
    (layout_render s rv m height vp).aborted = false ∧
      (layout_render s rv m height vp).measured = m ∧
      (layout_render s rv m height vp).rv = rv := by
  simp only [layout_render]
  split_ifs with h1 h2 <;>
    simp [render_phase_flags]

theorem layout_render_empty (s : LazyLabel) (rv : RecycleView) (m : Bool)
    (height : ℚ) (vp : Viewport) (h : s.texture_size = ((0 : ℚ), (0 : ℚ))) :
    (layout_render s rv m height vp).state = s ∧
      (layout_render s rv m height vp).early_empty = true ∧
      (layout_render s rv m height vp).rebuilt = false ∧
      (layout_render s rv m height vp).coverage_ran = false ∧
      (layout_render s rv m height vp).rendered = false := by
  simp [layout_render, h]

theorem layout_render_preserves (s : LazyLabel) (rv : RecycleView) (m : Bool)
    (height : ℚ) (vp : Viewport) :
    (layout_render s rv m height vp).state.texture_size = s.texture_size ∧
      (layout_render s rv m height vp).state.size_to_texture_height =
        s.size_to_texture_height ∧
      (layout_render s rv m height vp).state.trigger_texture = s.trigger_texture ∧
      (layout_render s rv m height vp).state.constrain_text_width =
        s.constrain_text_width ∧
      (layout_render s rv m height vp).state.text_size0 = s.text_size0 ∧
      (layout_render s rv m height vp).state.width = s.width ∧
      (layout_render s rv m height vp).state.height = s.height ∧
      (layout_render s rv m height vp).state.x = s.x ∧
      (layout_render s rv m height vp).state.y = s.y ∧
      (layout_render s rv m height vp).state.cached_lines = s.cached_lines := by
  simp only [layout_render]
  split_ifs with h1 h2
  · simp
  · refine ⟨?_, ?_, ?_, ?_, ?_, ?_, ?_, ?_, ?_, ?_⟩ <;>
      simp [render_phase_preserves, do_rebuild_fields,
        (render_phase_preserves _ _ _ _ _).1, (do_rebuild_fields s height _).1]
  · exact ⟨(render_phase_preserves _ _ _ _ _).1, (render_phase_preserves _ _ _ _ _).2.2.1,
      (render_phase_preserves _ _ _ _ _).2.2.2.1, (render_phase_preserves _ _ _ _ _).2.2.2.2.1,
      (render_phase_preserves _ _ _ _ _).2.2.2.2.2.1,
      (render_phase_preserves _ _ _ _ _).2.2.2.2.2.2.1,
      (render_phase_preserves _ _ _ _ _).2.2.2.2.2.2.2.1,
      (render_phase_preserves _ _ _ _ _).2.2.2.2.2.2.2.2.1,
      (render_phase_preserves _ _ _ _ _).2.2.2.2.2.2.2.2.2.1,
      (render_phase_preserves _ _ _ _ _).2.2.2.2.2.2.2.2.2.2.2.2.2⟩

/-- After a completed non-empty layout pass the rebuild test fails for the
same height and viewport: the line table exists, the stored height matches,
and the window is within the 3x-viewport cap. -/
theorem layout_render_post_no_rebuild (s : LazyLabel) (rv : RecycleView)
    (m : Bool) (height : ℚ) (vp : Viewport)
    (hts : s.texture_size ≠ ((0 : ℚ), (0 : ℚ))) :
    ¬ rebuild_needed (layout_render s rv m height vp).state height
        (vp.y2 - vp.y1) := by
  simp only [layout_render, if_neg hts]
  split_ifs with hreb
  · intro hcon
    rcases hcon with hc | hc | hc
    · rw [(render_phase_preserves _ _ _ _ _).2.2.2.2.2.2.2.2.2.2.1,
        (do_rebuild_updates s height _).1] at hc
      exact Option.noConfusion hc
    · rw [(render_phase_preserves _ _ _ _ _).2.2.2.2.2.2.2.2.2.2.2.1,
        (do_rebuild_updates s height _).2.1] at hc
      exact hc rfl
    · rw [(render_phase_preserves _ _ _ _ _).2.1,
        (do_rebuild_updates s height _).2.2.1] at hc
      simp only at hc
      have : min s.texture_size.2 (3 * (vp.y2 - vp.y1)) ≤ 3 * (vp.y2 - vp.y1) :=
        min_le_right _ _
      linarith
  · intro hcon
    rcases hcon with hc | hc | hc
    · rw [(render_phase_preserves _ _ _ _ _).2.2.2.2.2.2.2.2.2.2.1] at hc
      exact hreb (Or.inl hc)
    · rw [(render_phase_preserves _ _ _ _ _).2.2.2.2.2.2.2.2.2.2.2.1] at hc
      exact hreb (Or.inr (Or.inl hc))
    · rw [(render_phase_preserves _ _ _ _ _).2.1] at hc
      exact hreb (Or.inr (Or.inr hc))

/-- After a completed non-empty layout pass with a viewport at least 0.1
units tall, the stored covered range passes the coverage test for that same
viewport. -/
theorem layout_render_post_coverage (s : LazyLabel) (rv : RecycleView)
    (m : Bool) (height : ℚ) (vp : Viewport)
    (hts : s.texture_size ≠ ((0 : ℚ), (0 : ℚ)))
    (hvh : vp.y2 - vp.y1 ≥ 1/10) :
    coverage_ok
      (((layout_render s rv m height vp).state.last_rendered_view.getD
        ((-1 : ℚ), (0 : ℚ)))).1
      (((layout_render s rv m height vp).state.last_rendered_view.getD
        ((-1 : ℚ), (0 : ℚ)))).2
      ((layout_render s rv m height vp).state.height -
        (vp.y1 - (layout_render s rv m height vp).state.y))
      ((layout_render s rv m height vp).state.height -
        (vp.y2 - (layout_render s rv m height vp).state.y)) := by
  have hh := (layout_render_preserves s rv m height vp).2.2.2.2.2.2.1
  have hy := (layout_render_preserves s rv m height vp).2.2.2.2.2.2.2.2.1
  rw [hh, hy]
  simp only [layout_render, if_neg hts]
  split_ifs with hreb
  · -- rebuild path: the sentinel fails coverage, so a render always happens
    set s1 := do_rebuild s height (vp.y2 - vp.y1) with hs1
    rcases Bool.eq_false_or_eq_true (render_phase s1 rv m vp true).rendered with
      hr | hr
    · rw [render_phase_lrv_of_rendered s1 rv m vp true hr]
      have h1 : s1.height = s.height := (do_rebuild_fields s height _).2.2.2.2.2.2.1
      have h2 : s1.y = s.y := (do_rebuild_fields s height _).2.2.2.2.2.2.2.2.1
      rw [h1, h2]
      simp only [Option.getD_some]
      constructor
      · linarith
      constructor
      · linarith
      · linarith
    · exfalso
      have := (render_phase_rendered_iff s1 rv m vp true).1 hr
      rw [(do_rebuild_updates s height _).2.2.2.2.2] at this
      simp only [Option.getD_some] at this
      exact coverage_sentinel_fails _ _ this
  · rcases Bool.eq_false_or_eq_true (render_phase s rv m vp false).rendered with
      hr | hr
    · rw [render_phase_lrv_of_rendered s rv m vp false hr]
      simp only [Option.getD_some]
      constructor
      · linarith
      constructor
      · linarith
      · linarith
    · rw [render_phase_state_of_skip s rv m vp false hr]
      exact (render_phase_rendered_iff s rv m vp false).1 hr

theorem texture_update_resets (s : LazyLabel) (er : EngineResult) :
    (texture_update s er).true_texture_size = ((0 : ℚ), (0 : ℚ)) ∧
      (texture_update s er).lines_pos = none ∧
      (texture_update s er).texture = none := by
  obtain ⟨sz, cl, ihh, opts⟩ := er
  cases opts <;>
    (simp only [texture_update]; split_ifs <;> simp)

theorem texture_update_preserves (s : LazyLabel) (er : EngineResult) :
    (texture_update s er).size_to_texture_height = s.size_to_texture_height ∧
      (texture_update s er).trigger_texture = s.trigger_texture ∧
      (texture_update s er).constrain_text_width = s.constrain_text_width ∧
      (texture_update s er).text_size0 = s.text_size0 ∧
      (texture_update s er).width = s.width ∧
      (texture_update s er).height = s.height ∧
      (texture_update s er).x = s.x ∧
      (texture_update s er).y = s.y ∧
      (texture_update s er).next_tex_id = s.next_tex_id ∧
      (texture_update s er).halign = s.halign ∧
      (texture_update s er).strip = s.strip ∧
      (texture_update s er).markup = s.markup ∧
      (texture_update s er).text = s.text ∧
      (texture_update s er).color_hex = s.color_hex := by
  obtain ⟨sz, cl, ihh, opts⟩ := er
  cases opts <;>
    (simp only [texture_update]; split_ifs <;> simp)

/-- On empty (or stripping-to-empty) text, `texture_update` only performs the
initial resets and reports a zero measurement; in particular the core label's
text is untouched. -/
theorem texture_update_empty (s : LazyLabel) (er : EngineResult)
    (h : empty_text_policy s) :
    texture_update s er =
      { s with texture := none, lines_pos := none, last_height := 0,
               true_texture_size := ((0 : ℚ), (0 : ℚ)),
               texture_size := ((0 : ℚ), (0 : ℚ)) } := by
  have h' : empty_text_policy
      { s with texture := none, lines_pos := none, last_height := 0,
               true_texture_size := ((0 : ℚ), (0 : ℚ)) } := by
    unfold empty_text_policy at h ⊢
    exact h
  simp only [texture_update, if_pos h']

/-- A degenerate engine result (size at most one unit in either dimension, or
no derivable default line options) always yields a zero measurement. -/
theorem texture_update_degenerate (s : LazyLabel) (er : EngineResult)
    (h : er.sz.1 ≤ 1 ∨ er.sz.2 ≤ 1 ∨ er.options = none) :
    (texture_update s er).texture_size = ((0 : ℚ), (0 : ℚ)) := by
  obtain ⟨sz, cl, ihh, opts⟩ := er
  simp only at h
  cases opts with
  | none => simp only [texture_update]; split_ifs <;> simp
  | some o =>
    have h2 : sz.1 ≤ 1 ∨ sz.2 ≤ 1 := by
      rcases h with h | h | h
      · exact Or.inl h
      · exact Or.inr h
      · exact Option.noConfusion h
    simp only [texture_update]
    split_ifs with hc1 hc2 <;> simp_all

/-- In markup mode on non-empty text, the text handed to the engine is the
raw widget text — stripped first when the whitespace policy is active — and
only then wrapped in the colour span. -/
theorem texture_update_markup (s : LazyLabel) (er : EngineResult)
    (hm : s.markup = true) (hne : ¬ empty_text_policy s) :
    (texture_update s er).label_text =
      "[color=" ++ s.color_hex ++ "]" ++
        (if halign_last_y s.halign = true ∨ s.strip = true then pyStrip s.text
         else s.text) ++ "[/color]" := by
  have hne' : ¬ empty_text_policy
      { s with texture := none, lines_pos := none, last_height := 0,
               true_texture_size := ((0 : ℚ), (0 : ℚ)) } := by
    unfold empty_text_policy at hne ⊢
    exact hne
  obtain ⟨sz, cl, ihh, opts⟩ := er
  cases opts <;>
    (simp only [texture_update, if_neg hne', hm]; split_ifs <;> simp_all)

theorem apply_geometry_fields (s : LazyLabel) (p q : ℚ × ℚ) :
    (apply_geometry s p q).x = p.1 ∧ (apply_geometry s p q).y = p.2 ∧
      (apply_geometry s p q).width = q.1 ∧ (apply_geometry s p q).height = q.2 ∧
      (apply_geometry s p q).texture_size = s.texture_size ∧
      (apply_geometry s p q).true_texture_size = s.true_texture_size ∧
      (apply_geometry s p q).size_to_texture_height = s.size_to_texture_height ∧
      (apply_geometry s p q).constrain_text_width = s.constrain_text_width ∧
      (apply_geometry s p q).lines_pos = s.lines_pos ∧
      (apply_geometry s p q).last_height = s.last_height ∧
      (apply_geometry s p q).last_rendered_view = s.last_rendered_view ∧
      (apply_geometry s p q).texture = s.texture ∧
      (apply_geometry s p q).next_tex_id = s.next_tex_id ∧
      (apply_geometry s p q).cached_lines = s.cached_lines ∧
      (apply_geometry s p q).label_text = s.label_text ∧
      (apply_geometry s p q).halign = s.halign ∧
      (apply_geometry s p q).strip = s.strip ∧
      (apply_geometry s p q).markup = s.markup ∧
      (apply_geometry s p q).text = s.text ∧
      (apply_geometry s p q).color_hex = s.color_hex := by
  simp only [apply_geometry]
  split_ifs <;> simp

/-- The trigger after geometry application: set when it was already set or
when the width constraint has to rewrite `text_size[0]`. -/
theorem apply_geometry_trigger (s : LazyLabel) (p q : ℚ × ℚ) :
    (apply_geometry s p q).trigger_texture =
      (s.trigger_texture ||
        (s.constrain_text_width && decide (s.text_size0 ≠ q.1))) := by
  simp only [apply_geometry]
  split_ifs with h <;> simp_all

/-- After geometry application, a constrained label has its wrap width equal
to the widget width. -/
theorem apply_geometry_text_size0 (s : LazyLabel) (p q : ℚ × ℚ)
    (h : s.constrain_text_width = true) :
    (apply_geometry s p q).text_size0 = q.1 ∨
      ((apply_geometry s p q).text_size0 = s.text_size0 ∧ s.text_size0 = q.1) := by
  simp only [apply_geometry]
  split_ifs with hc <;> simp_all

/-- Applying the same geometry twice is the same as applying it once. -/
theorem apply_geometry_idem (s : LazyLabel) (p q : ℚ × ℚ) :
    apply_geometry (apply_geometry s p q) p q = apply_geometry s p q := by
  simp only [apply_geometry]
  split_ifs with h1 h2 h2 <;> simp_all

/-- Witness for C4 at a concrete input: table `[0, 5, 10]`, window `[3, 7]`,
line 0 (spanning `[0, 5]`) overlaps it. -/
theorem locate_range_covers_window_witness :
    (locate_range [0, 5, 10] 3 7).1 ≤ 0 ∧ 0 < (locate_range [0, 5, 10] 3 7).2 := by
  refine locate_range_covers_window [0, 5, 10] 3 7 ?_ (by norm_num) 0 (by simp)
    ?_ ?_
  · intro i j hij hj
    simp only [List.length_cons, List.length_nil] at hj
    interval_cases j <;> interval_cases i <;> norm_num
  · norm_num
  · norm_num


/-! ## Data-record helpers -/

theorem get_key_set_key (d : List (String × ℚ)) (k : String) (v : ℚ) :
    get_key (set_key d k v) k = some v := by
  induction d with
  | nil => simp [set_key, get_key]
  | cons kv rest ih =>
    obtain ⟨k', v'⟩ := kv
    by_cases h : k' = k <;> simp [set_key, get_key, h, ih]

theorem getD_set_self {α : Type} (l : List α) (i : ℕ) (a : α) (d : α)
    (h : i < l.length) : (l.set i a).getD i d = a := by
  induction l generalizing i with
  | nil => simp at h
  | cons b t ih =>
    cases i with
    | zero => simp
    | succ n =>
      simp only [List.set_cons_succ, List.getD_cons_succ]
      exact ih n (by simpa using h)

/-! ## The resize/reflow coordinator -/

/-- Claim C1: on a layout pass of a height-follows-content item in which a
re-measure runs and the newly measured texture height differs from the
host-assigned height, `refresh_view_layout` writes the measured height into
the host's data record under the configured size key, requests a
content-extent refresh, and aborts the pass (raising the layout-changed
signal), without building a texture window or rasterizing anything in that
same call. -/
theorem refresh_view_layout_abort_on_height_change
    (s0 : LazyLabel) (rv : RecycleView) (index : ℕ) (p q : ℚ × ℚ)
    (vp : Viewport) (er : EngineResult)
    (hst : s0.size_to_texture_height = true)
    (hidx : index < rv.data.length)
    (hm : (refresh_view_layout s0 rv index p q vp er).measured = true)
    (hne : (refresh_view_layout s0 rv index p q vp er).state.texture_size.2 ≠ q.2) :
    (refresh_view_layout s0 rv index p q vp er).aborted = true ∧
      get_key ((refresh_view_layout s0 rv index p q vp er).rv.data.getD index [])
        rv.key_size =
        some (refresh_view_layout s0 rv index p q vp er).state.texture_size.2 ∧
      (refresh_view_layout s0 rv index p q vp er).rv.asked_refresh_from_data = true ∧
      (refresh_view_layout s0 rv index p q vp er).rebuilt = false ∧
      (refresh_view_layout s0 rv index p q vp er).rendered = false := by
  have hstg : (apply_geometry s0 p q).size_to_texture_height = true := by
    rw [(apply_geometry_fields s0 p q).2.2.2.2.2.2.1]
    exact hst
  simp only [refresh_view_layout] at hm hne ⊢
  split_ifs at hm hne ⊢ with h1 h2
  · -- abort branch: everything is immediate except the data-record lookup
    refine ⟨rfl, ?_, rfl, rfl, rfl⟩
    simp only
    rw [getD_set_self _ _ _ _ hidx]
    exact get_key_set_key _ _ _
  · -- measured but no abort: contradicts the changed measured height
    exfalso
    have hstu :
        (texture_update { apply_geometry s0 p q with trigger_texture := false }
          er).size_to_texture_height = true := by
      rw [(texture_update_preserves _ _).1]
      exact hstg
    rw [(layout_render_preserves _ _ _ _ _).1] at hne
    apply hne
    by_contra hq
    exact h2 ⟨hstu, fun he => hq he.symm⟩
  · -- no re-measure ran: contradicts `measured = true`
    exact absurd ((layout_render_flags _ _ _ _ _).2.1.symm.trans hm) (by simp)

/-! ## String-literal facts used while evaluating concrete states -/

theorem hello_ne_empty : ("hello" : String) ≠ "" := by decide

theorem top_ne_bottom : ("top" : String) ≠ "bottom" := by decide

theorem top_ne_middle : ("top" : String) ≠ "middle" := by decide

theorem halign_left_not_y : halign_last_y "left" = false := by decide

theorem blank2_ne_empty : ("  " : String) ≠ "" := by decide

theorem pyStrip_blank2 : pyStrip "  " = "" := by decide

/-- Witness for C1: a pending trigger re-measures to height 200 while the
assigned height is 100; the pass aborts after writing 200 under "height". -/
theorem refresh_view_layout_abort_on_height_change_witness :
    (refresh_view_layout sampleGrowState sampleRV 0 (0, 0) (50, 100)
        ⟨0, 0, 50, 10⟩ sampleER).aborted = true ∧
      get_key ((refresh_view_layout sampleGrowState sampleRV 0 (0, 0) (50, 100)
        ⟨0, 0, 50, 10⟩ sampleER).rv.data.getD 0 []) sampleRV.key_size =
        some (refresh_view_layout sampleGrowState sampleRV 0 (0, 0) (50, 100)
        ⟨0, 0, 50, 10⟩ sampleER).state.texture_size.2 ∧
      (refresh_view_layout sampleGrowState sampleRV 0 (0, 0) (50, 100)
        ⟨0, 0, 50, 10⟩ sampleER).rv.asked_refresh_from_data = true ∧
      (refresh_view_layout sampleGrowState sampleRV 0 (0, 0) (50, 100)
        ⟨0, 0, 50, 10⟩ sampleER).rebuilt = false ∧
      (refresh_view_layout sampleGrowState sampleRV 0 (0, 0) (50, 100)
        ⟨0, 0, 50, 10⟩ sampleER).rendered = false := by
  apply refresh_view_layout_abort_on_height_change
  · rfl
  · simp [sampleRV]
  · norm_num [refresh_view_layout, apply_geometry, texture_update,
      empty_text_policy, halign_left_not_y, hello_ne_empty, top_ne_bottom,
      top_ne_middle, sampleGrowState, sampleMeasuredState, sampleER,
      sampleOptions, layout_render, rebuild_needed, render_phase, do_rebuild,
      coverage_ok, sampleLines10]
  · norm_num [refresh_view_layout, apply_geometry, texture_update,
      empty_text_policy, halign_left_not_y, hello_ne_empty, top_ne_bottom,
      top_ne_middle, sampleGrowState, sampleMeasuredState, sampleER,
      sampleOptions, layout_render, rebuild_needed, render_phase, do_rebuild,
      coverage_ok, sampleLines10]

/-! ## The bounded texture window (C3) -/

theorem layout_render_tts_bound (s : LazyLabel) (rv : RecycleView) (m : Bool)
    (height : ℚ) (vp : Viewport)
    (hinv : s.texture_size = ((0 : ℚ), (0 : ℚ)) →
      s.true_texture_size = ((0 : ℚ), (0 : ℚ)))
    (hvp : vp.y1 ≤ vp.y2) :
    (layout_render s rv m height vp).state.true_texture_size.2 ≤
      3 * (vp.y2 - vp.y1) + 1/100 := by
  simp only [layout_render]
  split_ifs with h1 h2
  · simp only
    rw [hinv h1]
    simp only
    linarith
  · rw [(render_phase_preserves _ _ _ _ _).2.1, (do_rebuild_updates s height _).2.2.1]
    simp only
    have := min_le_right s.texture_size.2 (3 * (vp.y2 - vp.y1))
    linarith
  · rw [(render_phase_preserves _ _ _ _ _).2.1]
    unfold rebuild_needed at h2
    push_neg at h2
    linarith [h2.2.2]

theorem layout_render_rebuilt_tts (s : LazyLabel) (rv : RecycleView) (m : Bool)
    (height : ℚ) (vp : Viewport)
    (hr : (layout_render s rv m height vp).rebuilt = true) :
    (layout_render s rv m height vp).state.true_texture_size =
      (s.texture_size.1, min s.texture_size.2 (3 * (vp.y2 - vp.y1))) := by
  simp only [layout_render] at hr ⊢
  split_ifs at hr ⊢ with h1 h2
  · rw [(render_phase_preserves _ _ _ _ _).2.1, (do_rebuild_updates s height _).2.2.1]
  · have hf := (render_phase_flags s rv m vp false).2.2.2.1
    simp [hf] at hr

/-- Claim C3: after any completed (non-aborted) `refresh_view_layout` call,
the allocated texture window's height never exceeds three viewport heights by
more than the 0.01 epsilon, whatever the total logical text height; and on a
rebuild the window height is exactly `min(full logical height, 3 x viewport
height)`.  The hypothesis `hinv` is the reachability invariant that a zero
measurement comes with a zero window (every `texture_update` establishes it,
and it holds for a fresh widget). -/
theorem true_texture_height_bounded (s0 : LazyLabel) (rv : RecycleView)
    (index : ℕ) (p q : ℚ × ℚ) (vp : Viewport) (er : EngineResult)
    (hinv : s0.texture_size = ((0 : ℚ), (0 : ℚ)) →
      s0.true_texture_size = ((0 : ℚ), (0 : ℚ)))
    (hvp : vp.y1 ≤ vp.y2)
    (hab : (refresh_view_layout s0 rv index p q vp er).aborted = false) :
    (refresh_view_layout s0 rv index p q vp er).state.true_texture_size.2 ≤
        3 * (vp.y2 - vp.y1) + 1/100 ∧
      ((refresh_view_layout s0 rv index p q vp er).rebuilt = true →
        (refresh_view_layout s0 rv index p q vp er).state.true_texture_size =
          ((refresh_view_layout s0 rv index p q vp er).state.texture_size.1,
            min (refresh_view_layout s0 rv index p q vp er).state.texture_size.2
              (3 * (vp.y2 - vp.y1)))) := by
  simp only [refresh_view_layout] at hab ⊢
  split_ifs at hab ⊢ with h1 h2
  · constructor
    · exact layout_render_tts_bound _ rv true q.2 vp
        (fun _ => (texture_update_resets _ _).1) hvp
    · intro hr
      rw [(layout_render_preserves _ _ _ _ _).1]
      exact layout_render_rebuilt_tts _ rv true q.2 vp hr
  · constructor
    · refine layout_render_tts_bound _ rv false q.2 vp ?_ hvp
      intro hz
      rw [(apply_geometry_fields s0 p q).2.2.2.2.2.1]
      rw [(apply_geometry_fields s0 p q).2.2.2.2.1] at hz
      exact hinv hz
    · intro hr
      rw [(layout_render_preserves _ _ _ _ _).1]
      exact layout_render_rebuilt_tts _ rv false q.2 vp hr

/-- Witness for C3: laying out the freshly measured sample item against a
10-unit-tall viewport. -/
theorem true_texture_height_bounded_witness :
    (refresh_view_layout sampleMeasuredState sampleRV 0 (0, 0) (50, 100)
        ⟨0, 0, 50, 10⟩ sampleER).state.true_texture_size.2 ≤
        3 * ((10 : ℚ) - 0) + 1/100 ∧
      ((refresh_view_layout sampleMeasuredState sampleRV 0 (0, 0) (50, 100)
        ⟨0, 0, 50, 10⟩ sampleER).rebuilt = true →
        (refresh_view_layout sampleMeasuredState sampleRV 0 (0, 0) (50, 100)
        ⟨0, 0, 50, 10⟩ sampleER).state.true_texture_size =
          ((refresh_view_layout sampleMeasuredState sampleRV 0 (0, 0) (50, 100)
        ⟨0, 0, 50, 10⟩ sampleER).state.texture_size.1,
            min (refresh_view_layout sampleMeasuredState sampleRV 0 (0, 0)
              (50, 100) ⟨0, 0, 50, 10⟩ sampleER).state.texture_size.2
              (3 * ((10 : ℚ) - 0)))) := by
  exact true_texture_height_bounded sampleMeasuredState sampleRV 0 (0, 0)
    (50, 100) ⟨0, 0, 50, 10⟩ sampleER (fun _ => rfl) (by norm_num)
    (by norm_num [refresh_view_layout, apply_geometry, texture_update,
      empty_text_policy, halign_left_not_y, hello_ne_empty, top_ne_bottom,
      top_ne_middle, sampleMeasuredState, sampleER, sampleOptions,
      layout_render, rebuild_needed, render_phase, do_rebuild, coverage_ok,
      sampleLines10, layout_render_flags])

/-! ## Empty and degenerate measurements (C7, C10) -/

theorem empty_text_policy_congr (a b : LazyLabel) (h1 : a.label_text = b.label_text)
    (h2 : a.halign = b.halign) (h3 : a.strip = b.strip) :
    empty_text_policy a ↔ empty_text_policy b := by
  unfold empty_text_policy
  rw [h1, h2, h3]

/-- A layout pass starting from a zero measurement whose (possible) re-measure
also produces a zero measurement builds no window, runs no coverage test and
renders nothing — whether it aborts or returns at the zero-size check. -/
theorem refresh_no_render_core (s1 : LazyLabel) (rv : RecycleView) (index : ℕ)
    (p q : ℚ × ℚ) (vp : Viewport) (er2 : EngineResult)
    (hts : s1.texture_size = ((0 : ℚ), (0 : ℚ)))
    (hupd : (texture_update
      { apply_geometry s1 p q with trigger_texture := false } er2).texture_size =
      ((0 : ℚ), (0 : ℚ))) :
    (refresh_view_layout s1 rv index p q vp er2).rebuilt = false ∧
      (refresh_view_layout s1 rv index p q vp er2).coverage_ran = false ∧
      (refresh_view_layout s1 rv index p q vp er2).rendered = false := by
  simp only [refresh_view_layout]
  split_ifs with h1 h2
  · exact ⟨rfl, rfl, rfl⟩
  · have := layout_render_empty
      (texture_update { apply_geometry s1 p q with trigger_texture := false } er2)
      rv true q.2 vp hupd
    exact ⟨this.2.2.1, this.2.2.2.1, this.2.2.2.2⟩
  · have hts' : (apply_geometry s1 p q).texture_size = ((0 : ℚ), (0 : ℚ)) := by
      rw [(apply_geometry_fields s1 p q).2.2.2.2.1]
      exact hts
    have := layout_render_empty (apply_geometry s1 p q) rv false q.2 vp hts'
    exact ⟨this.2.2.1, this.2.2.2.1, this.2.2.2.2⟩

/-- Claim C7: empty text — or text that strips to empty under the active
whitespace policy (justify alignment or the strip flag) — measures to a
zero-size `texture_size`, and a subsequent layout pass short-circuits on that
zero size: no texture window is built, no coverage test runs, and nothing is
rendered. -/
theorem empty_text_short_circuits (s : LazyLabel) (er er2 : EngineResult)
    (rv : RecycleView) (index : ℕ) (p q : ℚ × ℚ) (vp : Viewport)
    (hempty : empty_text_policy s) :
    (texture_update s er).texture_size = ((0 : ℚ), (0 : ℚ)) ∧
      (refresh_view_layout (texture_update s er) rv index p q vp er2).rebuilt =
        false ∧
      (refresh_view_layout (texture_update s er) rv index p q vp er2).coverage_ran =
        false ∧
      (refresh_view_layout (texture_update s er) rv index p q vp er2).rendered =
        false := by
  have h1 : (texture_update s er).texture_size = ((0 : ℚ), (0 : ℚ)) := by
    rw [texture_update_empty s er hempty]
  have hemp2 : empty_text_policy
      { apply_geometry (texture_update s er) p q with trigger_texture := false } := by
    refine (empty_text_policy_congr _ s ?_ ?_ ?_).2 hempty
    · show (apply_geometry (texture_update s er) p q).label_text = s.label_text
      rw [(apply_geometry_fields _ p q).2.2.2.2.2.2.2.2.2.2.2.2.2.2.1,
        texture_update_empty s er hempty]
    · show (apply_geometry (texture_update s er) p q).halign = s.halign
      rw [(apply_geometry_fields _ p q).2.2.2.2.2.2.2.2.2.2.2.2.2.2.2.1,
        texture_update_empty s er hempty]
    · show (apply_geometry (texture_update s er) p q).strip = s.strip
      rw [(apply_geometry_fields _ p q).2.2.2.2.2.2.2.2.2.2.2.2.2.2.2.2.1,
        texture_update_empty s er hempty]
  have hupd : (texture_update
      { apply_geometry (texture_update s er) p q with trigger_texture := false }
      er2).texture_size = ((0 : ℚ), (0 : ℚ)) := by
    rw [texture_update_empty _ er2 hemp2]
  exact ⟨h1, refresh_no_render_core _ rv index p q vp er2 h1 hupd⟩

/-- Witness for C7: whitespace-only text with the strip flag enabled. -/
theorem empty_text_short_circuits_witness :
    (texture_update sampleEmptyState sampleER).texture_size = ((0 : ℚ), (0 : ℚ)) ∧
      (refresh_view_layout (texture_update sampleEmptyState sampleER) sampleRV 0
        (0, 0) (50, 100) ⟨0, 0, 50, 10⟩ sampleER).rebuilt = false ∧
      (refresh_view_layout (texture_update sampleEmptyState sampleER) sampleRV 0
        (0, 0) (50, 100) ⟨0, 0, 50, 10⟩ sampleER).coverage_ran = false ∧
      (refresh_view_layout (texture_update sampleEmptyState sampleER) sampleRV 0
        (0, 0) (50, 100) ⟨0, 0, 50, 10⟩ sampleER).rendered = false := by
  exact empty_text_short_circuits sampleEmptyState sampleER sampleER sampleRV 0
    (0, 0) (50, 100) ⟨0, 0, 50, 10⟩
    (Or.inr ⟨Or.inr rfl, pyStrip_blank2⟩)

/-- Claim C10 (implicit): even for non-empty, non-stripping text, a
degenerate engine measurement — reported width or height at most one unit, or
no derivable default line options — makes `texture_update` report
`texture_size = (0, 0)`, and the subsequent layout pass short-circuits
exactly as in the empty-text case. -/
theorem degenerate_measure_short_circuits (s : LazyLabel)
    (er er2 : EngineResult) (rv : RecycleView) (index : ℕ) (p q : ℚ × ℚ)
    (vp : Viewport)
    (hne : ¬ empty_text_policy s)
    (hdeg : er.sz.1 ≤ 1 ∨ er.sz.2 ≤ 1 ∨ er.options = none)
    (hdeg2 : er2.sz.1 ≤ 1 ∨ er2.sz.2 ≤ 1 ∨ er2.options = none) :
    (texture_update s er).texture_size = ((0 : ℚ), (0 : ℚ)) ∧
      (refresh_view_layout (texture_update s er) rv index p q vp er2).rebuilt =
        false ∧
      (refresh_view_layout (texture_update s er) rv index p q vp er2).coverage_ran =
        false ∧
      (refresh_view_layout (texture_update s er) rv index p q vp er2).rendered =
        false := by
  have h1 := texture_update_degenerate s er hdeg
  have hupd := texture_update_degenerate
    { apply_geometry (texture_update s er) p q with trigger_texture := false }
    er2 hdeg2
  exact ⟨h1, refresh_no_render_core _ rv index p q vp er2 h1 hupd⟩

/-- Witness for C10: the word "hello" measured to a one-unit-tall size. -/
theorem degenerate_measure_short_circuits_witness :
    (texture_update sampleMeasuredState sampleDegenerateER).texture_size =
        ((0 : ℚ), (0 : ℚ)) ∧
      (refresh_view_layout (texture_update sampleMeasuredState sampleDegenerateER)
        sampleRV 0 (0, 0) (50, 100) ⟨0, 0, 50, 10⟩ sampleDegenerateER).rebuilt =
        false ∧
      (refresh_view_layout (texture_update sampleMeasuredState sampleDegenerateER)
        sampleRV 0 (0, 0) (50, 100) ⟨0, 0, 50, 10⟩ sampleDegenerateER).coverage_ran =
        false ∧
      (refresh_view_layout (texture_update sampleMeasuredState sampleDegenerateER)
        sampleRV 0 (0, 0) (50, 100) ⟨0, 0, 50, 10⟩ sampleDegenerateER).rendered =
        false := by
  refine degenerate_measure_short_circuits sampleMeasuredState sampleDegenerateER
    sampleDegenerateER sampleRV 0 (0, 0) (50, 100) ⟨0, 0, 50, 10⟩ ?_ ?_ ?_
  · intro h
    rcases h with h | h
    · exact hello_ne_empty h
    · rcases h with ⟨h2, h3⟩
      rcases h2 with h2 | h2
      · rw [show sampleMeasuredState.halign = "left" from rfl] at h2
        rw [halign_left_not_y] at h2
        exact Bool.noConfusion h2
      · exact Bool.noConfusion h2
  · right
    left
    norm_num [sampleDegenerateER]
  · right
    left
    norm_num [sampleDegenerateER]

/-! ## Markup wrapping (C9) -/

/-- Claim C9: in rich-markup mode on non-empty text, the text handed to the
layout engine is the raw widget text wrapped in a colour-span tag matching
the label's resolved colour, and under the active whitespace policy (justify
alignment or the strip flag) the whitespace — in particular trailing
whitespace — is stripped from the raw text before the wrapping is applied,
never after: the closing tag always ends the handed string. -/
theorem markup_strip_before_wrap (s : LazyLabel) (er : EngineResult)
    (hm : s.markup = true) (hne : ¬ empty_text_policy s) :
    (texture_update s er).label_text =
      "[color=" ++ s.color_hex ++ "]" ++
        (if halign_last_y s.halign = true ∨ s.strip = true then pyStrip s.text
         else s.text) ++ "[/color]" := by
  exact texture_update_markup s er hm hne

/-- Witness for C9: markup text `"hi  "` with the strip flag active is
stripped to `"hi"` and then wrapped. -/
theorem markup_strip_before_wrap_witness :
    (texture_update sampleMarkupState sampleER).label_text =
      "[color=" ++ sampleMarkupState.color_hex ++ "]" ++
        (if halign_last_y sampleMarkupState.halign = true ∨
            sampleMarkupState.strip = true then pyStrip sampleMarkupState.text
         else sampleMarkupState.text) ++ "[/color]" := by
  exact markup_strip_before_wrap sampleMarkupState sampleER rfl (by decide)

/-! ## Re-attach invalidation (C8) -/

theorem layout_render_not_empty (s : LazyLabel) (rv : RecycleView) (m : Bool)
    (height : ℚ) (vp : Viewport)
    (h : (layout_render s rv m height vp).early_empty = false) :
    s.texture_size ≠ ((0 : ℚ), (0 : ℚ)) := by
  intro hz
  rw [(layout_render_empty s rv m height vp hz).2.1] at h
  exact Bool.noConfusion h

/-- When the measurement is non-empty and a rebuild is required, the rebuild
branch runs, allocates a fresh texture object, installs a line offset table,
and — because the covered range was reset to the empty sentinel — a full
render necessarily follows in the same pass. -/
theorem layout_render_rebuild_effects (s : LazyLabel) (rv : RecycleView)
    (m : Bool) (height : ℚ) (vp : Viewport)
    (hts : s.texture_size ≠ ((0 : ℚ), (0 : ℚ)))
    (hreb : rebuild_needed s height (vp.y2 - vp.y1)) :
    (layout_render s rv m height vp).rebuilt = true ∧
      (layout_render s rv m height vp).rendered = true ∧
      (layout_render s rv m height vp).state.texture = some s.next_tex_id ∧
      (layout_render s rv m height vp).state.lines_pos.isSome = true := by
  simp only [layout_render, if_neg hts, if_pos hreb]
  have hrend :
      (render_phase (do_rebuild s height (vp.y2 - vp.y1)) rv m vp true).rendered =
        true := by
    rcases Bool.eq_false_or_eq_true
        (render_phase (do_rebuild s height (vp.y2 - vp.y1)) rv m vp true).rendered
      with hr | hr
    · exact hr
    · exfalso
      have hcov := (render_phase_rendered_iff _ rv m vp true).1 hr
      rw [(do_rebuild_updates s height _).2.2.2.2.2] at hcov
      simp only [Option.getD_some] at hcov
      exact coverage_sentinel_fails _ _ hcov
  refine ⟨(render_phase_flags _ _ _ _ _).2.2.2.1, hrend, ?_, ?_⟩
  · rw [(render_phase_preserves _ _ _ _ _).2.2.2.2.2.2.2.2.2.2.2.2.1,
      (do_rebuild_updates s height _).2.2.2.1]
  · rw [(render_phase_preserves _ _ _ _ _).2.2.2.2.2.2.2.2.2.2.1,
      (do_rebuild_updates s height _).1]
    rfl

/-- Claim C8: re-attaching an item binding to new data (`refresh_view_attrs`)
invalidates the line offset table, so the next layout pass that reaches the
windowed texture manager with non-empty content takes the full-rebuild
branch: a new texture object is created (never the one held before the
re-attach), the line offset table is rebuilt, and the covered-range reset
forces a full first render in that same pass.  `hfresh` is the allocator
invariant: any held texture identity predates the allocator counter. -/
theorem reattach_forces_rebuild (s0 : LazyLabel) (rv0 : RecycleView)
    (index : ℕ) (p q : ℚ × ℚ) (vp : Viewport) (er : EngineResult)
    (hfresh : ∀ k, s0.texture = some k → k < s0.next_tex_id)
    (hab : (refresh_view_layout (refresh_view_attrs s0 rv0).1
      (refresh_view_attrs s0 rv0).2 index p q vp er).aborted = false)
    (hne : (refresh_view_layout (refresh_view_attrs s0 rv0).1
      (refresh_view_attrs s0 rv0).2 index p q vp er).early_empty = false) :
    (refresh_view_layout (refresh_view_attrs s0 rv0).1
        (refresh_view_attrs s0 rv0).2 index p q vp er).rebuilt = true ∧
      (refresh_view_layout (refresh_view_attrs s0 rv0).1
        (refresh_view_attrs s0 rv0).2 index p q vp er).rendered = true ∧
      (refresh_view_layout (refresh_view_attrs s0 rv0).1
        (refresh_view_attrs s0 rv0).2 index p q vp er).state.texture.isSome =
        true ∧
      (refresh_view_layout (refresh_view_attrs s0 rv0).1
        (refresh_view_attrs s0 rv0).2 index p q vp er).state.texture ≠
        s0.texture ∧
      (refresh_view_layout (refresh_view_attrs s0 rv0).1
        (refresh_view_attrs s0 rv0).2 index p q vp er).state.lines_pos.isSome =
        true := by
  have hA : (refresh_view_attrs s0 rv0).1 = { s0 with lines_pos := none } := rfl
  simp only [refresh_view_layout, hA] at hab hne ⊢
  split_ifs at hab hne ⊢ with h1 h2
  · -- re-measure ran and did not abort
    have hts := layout_render_not_empty _ _ _ _ _ hne
    have hreb : rebuild_needed
        (texture_update
          { apply_geometry { s0 with lines_pos := none } p q with
              trigger_texture := false } er) q.2 (vp.y2 - vp.y1) :=
      Or.inl (texture_update_resets _ _).2.1
    have heff := layout_render_rebuild_effects _ (refresh_view_attrs s0 rv0).2 true q.2 vp hts hreb
    have hn : (texture_update
        { apply_geometry { s0 with lines_pos := none } p q with
            trigger_texture := false } er).next_tex_id = s0.next_tex_id := by
      rw [(texture_update_preserves _ _).2.2.2.2.2.2.2.2.1]
      show (apply_geometry { s0 with lines_pos := none } p q).next_tex_id =
        s0.next_tex_id
      rw [(apply_geometry_fields _ p q).2.2.2.2.2.2.2.2.2.2.2.2.1]
    refine ⟨heff.1, heff.2.1, ?_, ?_, heff.2.2.2⟩
    · rw [heff.2.2.1]
      rfl
    · rw [heff.2.2.1, hn]
      exact fun hcon => absurd (hfresh _ hcon.symm) (lt_irrefl _)
  · -- no re-measure: the table was invalidated by the re-attach itself
    have hts := layout_render_not_empty _ _ _ _ _ hne
    have hreb : rebuild_needed (apply_geometry { s0 with lines_pos := none } p q)
        q.2 (vp.y2 - vp.y1) := by
      left
      rw [(apply_geometry_fields _ p q).2.2.2.2.2.2.2.2.1]
    have heff := layout_render_rebuild_effects _ (refresh_view_attrs s0 rv0).2 false q.2 vp hts hreb
    have hn : (apply_geometry { s0 with lines_pos := none } p q).next_tex_id =
        s0.next_tex_id := by
      rw [(apply_geometry_fields _ p q).2.2.2.2.2.2.2.2.2.2.2.2.1]
    refine ⟨heff.1, heff.2.1, ?_, ?_, heff.2.2.2⟩
    · rw [heff.2.2.1]
      rfl
    · rw [heff.2.2.1, hn]
      exact fun hcon => absurd (hfresh _ hcon.symm) (lt_irrefl _)

/-! ## The coverage decision (C2) and idempotence (C6) -/

/-- Claim C2 (amended): in the render phase, with a non-empty measurement, no
re-rasterization happens exactly when no rebuild is required and the stored
covered range contains the *bare* current viewport (in top-relative
coordinates) with at least 0.1 units of clearance at each end.  (The
interval extended by one viewport height is what a render *writes into* the
bookkeeping afterwards, not what the coverage test checks.) -/
theorem render_skip_iff_bare_viewport_covered (s : LazyLabel)
    (rv : RecycleView) (m : Bool) (height : ℚ) (vp : Viewport)
    (hts : s.texture_size ≠ ((0 : ℚ), (0 : ℚ))) :
    (layout_render s rv m height vp).rendered = false ↔
      (¬ rebuild_needed s height (vp.y2 - vp.y1) ∧
        coverage_ok (s.last_rendered_view.getD ((-1 : ℚ), (0 : ℚ))).1
          (s.last_rendered_view.getD ((-1 : ℚ), (0 : ℚ))).2
          (s.height - (vp.y1 - s.y)) (s.height - (vp.y2 - s.y))) := by
  simp only [layout_render, if_neg hts]
  split_ifs with hreb
  · constructor
    · intro hr
      exfalso
      have hcov := (render_phase_rendered_iff _ rv m vp true).1 hr
      rw [(do_rebuild_updates s height _).2.2.2.2.2] at hcov
      simp only [Option.getD_some] at hcov
      exact coverage_sentinel_fails _ _ hcov
    · rintro ⟨hnr, _⟩
      exact absurd hreb hnr
  · rw [render_phase_rendered_iff]
    simp [hreb]

theorem apply_geometry_eq_self (t : LazyLabel) (p q : ℚ × ℚ)
    (hx : t.x = p.1) (hy : t.y = p.2) (hw : t.width = q.1) (hh : t.height = q.2)
    (hts0 : t.constrain_text_width = true → t.text_size0 = q.1) :
    apply_geometry t p q = t := by
  have hrec :
      ({ t with x := p.1, y := p.2, width := q.1, height := q.2 } : LazyLabel) =
        t := by
    rw [← hx, ← hy, ← hw, ← hh]
  simp only [apply_geometry, hrec]
  split_ifs with hc
  · exfalso
    apply hc.2
    rw [hts0 hc.1]
  · rfl

theorem apply_geometry_ts0 (s0 : LazyLabel) (p q : ℚ × ℚ)
    (hc : s0.constrain_text_width = true) :
    (apply_geometry s0 p q).text_size0 = q.1 := by
  simp only [apply_geometry]
  split_ifs with h <;> simp_all

/-- A second, identical call on a state satisfying the post-pass facts
performs no re-measure, no rebuild and no render. -/
theorem second_call_core (t : LazyLabel) (rv : RecycleView) (index : ℕ)
    (p q : ℚ × ℚ) (vp : Viewport) (er : EngineResult)
    (hgeom : apply_geometry t p q = t)
    (htr : t.trigger_texture = false)
    (hcond : ¬(q.2 ≠ t.texture_size.2 ∧ t.size_to_texture_height = true))
    (hreb : ¬ rebuild_needed t q.2 (vp.y2 - vp.y1))
    (hcov : coverage_ok (t.last_rendered_view.getD ((-1 : ℚ), (0 : ℚ))).1
        (t.last_rendered_view.getD ((-1 : ℚ), (0 : ℚ))).2
        (t.height - (vp.y1 - t.y)) (t.height - (vp.y2 - t.y)))
    (hts : t.texture_size ≠ ((0 : ℚ), (0 : ℚ))) :
    (refresh_view_layout t rv index p q vp er).measured = false ∧
      (refresh_view_layout t rv index p q vp er).rebuilt = false ∧
      (refresh_view_layout t rv index p q vp er).rendered = false := by
  have hnc : ¬(t.trigger_texture = true ∨
      (q.2 ≠ t.texture_size.2 ∧ t.size_to_texture_height = true)) := by
    rintro (h | h)
    · rw [htr] at h
      exact Bool.noConfusion h
    · exact hcond h
  simp only [refresh_view_layout, hgeom, if_neg hnc]
  simp only [layout_render, if_neg hts, if_neg hreb]
  exact ⟨(render_phase_flags _ _ _ _ _).2.1,
    (render_phase_flags _ _ _ _ _).2.2.2.1,
    (render_phase_rendered_iff _ _ _ _ _).2 hcov⟩

/-- Every completed pass is a `layout_render` call on an intermediate state
that carries the assigned geometry, a cancelled trigger, a reconciled
height, and (when width-constrained) the assigned wrap width. -/
theorem refresh_completed_form (s0 : LazyLabel) (rv : RecycleView) (index : ℕ)
    (p q : ℚ × ℚ) (vp : Viewport) (er : EngineResult)
    (hab : (refresh_view_layout s0 rv index p q vp er).aborted = false) :
    ∃ (sIn : LazyLabel) (m : Bool),
      refresh_view_layout s0 rv index p q vp er = layout_render sIn rv m q.2 vp ∧
        sIn.x = p.1 ∧ sIn.y = p.2 ∧ sIn.width = q.1 ∧ sIn.height = q.2 ∧
        sIn.trigger_texture = false ∧
        ¬(q.2 ≠ sIn.texture_size.2 ∧ sIn.size_to_texture_height = true) ∧
        (sIn.constrain_text_width = true → sIn.text_size0 = q.1) := by
  simp only [refresh_view_layout] at hab ⊢
  split_ifs at hab ⊢ with h1 h2
  · -- measured, no abort
    refine ⟨texture_update
      { apply_geometry s0 p q with trigger_texture := false } er, true, rfl,
      ?_, ?_, ?_, ?_, ?_, ?_, ?_⟩
    · rw [(texture_update_preserves _ _).2.2.2.2.2.2.1]
      exact (apply_geometry_fields s0 p q).1
    · rw [(texture_update_preserves _ _).2.2.2.2.2.2.2.1]
      exact (apply_geometry_fields s0 p q).2.1
    · rw [(texture_update_preserves _ _).2.2.2.2.1]
      exact (apply_geometry_fields s0 p q).2.2.1
    · rw [(texture_update_preserves _ _).2.2.2.2.2.1]
      exact (apply_geometry_fields s0 p q).2.2.2.1
    · rw [(texture_update_preserves _ _).2.1]
    · rintro ⟨ha, hb⟩
      exact h2 ⟨hb, ha⟩
    · intro hcw
      rw [(texture_update_preserves _ _).2.2.2.1]
      show (apply_geometry s0 p q).text_size0 = q.1
      apply apply_geometry_ts0
      have hcw2 : (apply_geometry s0 p q).constrain_text_width = true := by
        rw [← (texture_update_preserves
          { apply_geometry s0 p q with trigger_texture := false } er).2.2.1]
        exact hcw
      rw [(apply_geometry_fields s0 p q).2.2.2.2.2.2.2.1] at hcw2
      exact hcw2
  · -- no re-measure
    push_neg at h1
    refine ⟨apply_geometry s0 p q, false, rfl,
      (apply_geometry_fields s0 p q).1, (apply_geometry_fields s0 p q).2.1,
      (apply_geometry_fields s0 p q).2.2.1, (apply_geometry_fields s0 p q).2.2.2.1,
      ?_, ?_, ?_⟩
    · rcases Bool.eq_false_or_eq_true (apply_geometry s0 p q).trigger_texture with
        hb | hb
      · exact absurd hb h1.1
      · exact hb
    · exact fun hbc => h1.2 hbc.1 hbc.2
    · intro hcw
      exact apply_geometry_ts0 s0 p q (by
        rw [(apply_geometry_fields s0 p q).2.2.2.2.2.2.2.1] at hcw
        exact hcw)

/-- Claim C6 (amended): starting from any state, running one completed
non-empty layout pass and then a second pass with the same geometry,
viewport (at least 0.1 units tall) and measurement: the second pass performs
no re-measure, no rebuild, and no re-rasterization — the covered-range
bookkeeping left by the first pass already satisfies the coverage test. -/
theorem second_pass_skips_render (s0 : LazyLabel) (rv : RecycleView)
    (index : ℕ) (p q : ℚ × ℚ) (vp : Viewport) (er : EngineResult)
    (hvh : vp.y2 - vp.y1 ≥ 1/10)
    (hab : (refresh_view_layout s0 rv index p q vp er).aborted = false)
    (hts : (refresh_view_layout s0 rv index p q vp er).state.texture_size ≠
      ((0 : ℚ), (0 : ℚ))) :
    (refresh_view_layout (refresh_view_layout s0 rv index p q vp er).state
        (refresh_view_layout s0 rv index p q vp er).rv index p q vp er).measured =
        false ∧
      (refresh_view_layout (refresh_view_layout s0 rv index p q vp er).state
        (refresh_view_layout s0 rv index p q vp er).rv index p q vp er).rebuilt =
        false ∧
      (refresh_view_layout (refresh_view_layout s0 rv index p q vp er).state
        (refresh_view_layout s0 rv index p q vp er).rv index p q vp er).rendered =
        false := by
  obtain ⟨sIn, m, heq, hx, hy, hw, hh, htr, hcond, hts0⟩ :=
    refresh_completed_form s0 rv index p q vp er hab
  rw [heq] at hts ⊢
  have hpres := layout_render_preserves sIn rv m q.2 vp
  have htsIn : sIn.texture_size ≠ ((0 : ℚ), (0 : ℚ)) := by
    rw [← hpres.1]
    exact hts
  have hrv : (layout_render sIn rv m q.2 vp).rv = rv :=
    (layout_render_flags sIn rv m q.2 vp).2.2
  rw [hrv]
  apply second_call_core
  · -- same geometry is a fixed point of the geometry application
    apply apply_geometry_eq_self
    · rw [hpres.2.2.2.2.2.2.2.1]
      exact hx
    · rw [hpres.2.2.2.2.2.2.2.2.1]
      exact hy
    · rw [hpres.2.2.2.2.2.1]
      exact hw
    · rw [hpres.2.2.2.2.2.2.1]
      exact hh
    · intro hcw
      rw [hpres.2.2.2.2.1]
      apply hts0
      rw [← hpres.2.2.2.1]
      exact hcw
  · rw [hpres.2.2.1]
    exact htr
  · rw [hpres.1, hpres.2.1]
    exact hcond
  · exact layout_render_post_no_rebuild sIn rv m q.2 vp htsIn
  · exact layout_render_post_coverage sIn rv m q.2 vp htsIn hvh
  · rw [hpres.1]
    exact htsIn

set_option maxHeartbeats 2000000 in
/-- Counterexample to C2 as stated: after a first pass against viewport
`(0, 0, 50, 10)` the covered range is `(110, 80)`; scrolling down by half a
viewport (viewport `(0, -5, 50, 5)`, local bounds `[95, 105]`, viewport
height 10) the code performs NO re-render, yet the spec's margin-extended
interval `[95 - 10, 105 + 10]` is not contained in the covered range even
with the 0.1 tolerance. -/
theorem coverage_extended_margin_counterexample :
    (refresh_view_layout sampleMeasuredState sampleRV 0 (0, 0) (50, 100)
        ⟨0, 0, 50, 10⟩ sampleER).state.last_rendered_view = some (110, 80) ∧
      (refresh_view_layout
        (refresh_view_layout sampleMeasuredState sampleRV 0 (0, 0) (50, 100)
          ⟨0, 0, 50, 10⟩ sampleER).state
        (refresh_view_layout sampleMeasuredState sampleRV 0 (0, 0) (50, 100)
          ⟨0, 0, 50, 10⟩ sampleER).rv 0 (0, 0) (50, 100) ⟨0, -5, 50, 5⟩
        sampleER).rendered = false ∧
      ¬ spec_claimed_coverage 110 80 105 95 10 := by
  refine ⟨?_, ?_, ?_⟩
  · norm_num [refresh_view_layout, apply_geometry, layout_render, rebuild_needed,
      render_phase, do_rebuild, coverage_ok, sampleMeasuredState, sampleRV,
      sampleER, sampleOptions, sampleLines10, accumulate_lines,
      List.replicate, min_def, Option.some_ne_none]
  · norm_num [refresh_view_layout, apply_geometry, layout_render, rebuild_needed,
      render_phase, do_rebuild, coverage_ok, sampleMeasuredState, sampleRV,
      sampleER, sampleOptions, sampleLines10, accumulate_lines,
      List.replicate, min_def, Option.some_ne_none]
  · norm_num [spec_claimed_coverage]

/-- Witness for the amended C2: the already-rendered sample state against the
half-viewport-scrolled viewport. -/
theorem render_skip_iff_bare_viewport_covered_witness :
    (layout_render sampleRenderedState sampleRV false 100
        ⟨0, -5, 50, 5⟩).rendered = false ↔
      (¬ rebuild_needed sampleRenderedState 100 ((5 : ℚ) - (-5)) ∧
        coverage_ok
          (sampleRenderedState.last_rendered_view.getD ((-1 : ℚ), (0 : ℚ))).1
          (sampleRenderedState.last_rendered_view.getD ((-1 : ℚ), (0 : ℚ))).2
          (sampleRenderedState.height - ((-5) - sampleRenderedState.y))
          (sampleRenderedState.height - (5 - sampleRenderedState.y))) := by
  exact render_skip_iff_bare_viewport_covered sampleRenderedState sampleRV
    false 100 ⟨0, -5, 50, 5⟩
    (by norm_num [sampleRenderedState, sampleMeasuredState, Prod.ext_iff])

set_option maxHeartbeats 2000000 in
/-- Counterexample to C6 as stated: with a positive viewport height of 1/20
(below the 0.1 tolerance) the first pass completes and renders, the second
identical pass re-measures nothing — and still re-rasterizes, because the
0.1-unit tolerance of the coverage test exceeds the 1/20 margin written into
the covered-range bookkeeping. -/
theorem second_pass_rerenders_below_tolerance :
    (0 : ℚ) < (1/20 : ℚ) - 0 ∧
      (refresh_view_layout sampleMeasuredState sampleRV 0 (0, 0) (50, 100)
        ⟨0, 0, 50, 1/20⟩ sampleER).aborted = false ∧
      (refresh_view_layout sampleMeasuredState sampleRV 0 (0, 0) (50, 100)
        ⟨0, 0, 50, 1/20⟩ sampleER).state.texture_size ≠ ((0 : ℚ), (0 : ℚ)) ∧
      (refresh_view_layout
        (refresh_view_layout sampleMeasuredState sampleRV 0 (0, 0) (50, 100)
          ⟨0, 0, 50, 1/20⟩ sampleER).state
        (refresh_view_layout sampleMeasuredState sampleRV 0 (0, 0) (50, 100)
          ⟨0, 0, 50, 1/20⟩ sampleER).rv 0 (0, 0) (50, 100) ⟨0, 0, 50, 1/20⟩
        sampleER).measured = false ∧
      (refresh_view_layout
        (refresh_view_layout sampleMeasuredState sampleRV 0 (0, 0) (50, 100)
          ⟨0, 0, 50, 1/20⟩ sampleER).state
        (refresh_view_layout sampleMeasuredState sampleRV 0 (0, 0) (50, 100)
          ⟨0, 0, 50, 1/20⟩ sampleER).rv 0 (0, 0) (50, 100) ⟨0, 0, 50, 1/20⟩
        sampleER).rendered = true := by
  refine ⟨by norm_num, ?_, ?_, ?_, ?_⟩ <;>
    norm_num [refresh_view_layout, apply_geometry, layout_render,
      rebuild_needed, render_phase, do_rebuild, coverage_ok,
      sampleMeasuredState, sampleRV, sampleER, sampleOptions, sampleLines10,
      accumulate_lines, List.replicate, min_def, Option.some_ne_none,
      Prod.ext_iff]

set_option maxHeartbeats 2000000 in
/-- Witness for the amended C6: two identical passes against the 10-unit
viewport; the second one re-measures, rebuilds and renders nothing. -/
theorem second_pass_skips_render_witness :
    (refresh_view_layout
        (refresh_view_layout sampleMeasuredState sampleRV 0 (0, 0) (50, 100)
          ⟨0, 0, 50, 10⟩ sampleER).state
        (refresh_view_layout sampleMeasuredState sampleRV 0 (0, 0) (50, 100)
          ⟨0, 0, 50, 10⟩ sampleER).rv 0 (0, 0) (50, 100) ⟨0, 0, 50, 10⟩
        sampleER).measured = false ∧
      (refresh_view_layout
        (refresh_view_layout sampleMeasuredState sampleRV 0 (0, 0) (50, 100)
          ⟨0, 0, 50, 10⟩ sampleER).state
        (refresh_view_layout sampleMeasuredState sampleRV 0 (0, 0) (50, 100)
          ⟨0, 0, 50, 10⟩ sampleER).rv 0 (0, 0) (50, 100) ⟨0, 0, 50, 10⟩
        sampleER).rebuilt = false ∧
      (refresh_view_layout
        (refresh_view_layout sampleMeasuredState sampleRV 0 (0, 0) (50, 100)
          ⟨0, 0, 50, 10⟩ sampleER).state
        (refresh_view_layout sampleMeasuredState sampleRV 0 (0, 0) (50, 100)
          ⟨0, 0, 50, 10⟩ sampleER).rv 0 (0, 0) (50, 100) ⟨0, 0, 50, 10⟩
        sampleER).rendered = false := by
  refine second_pass_skips_render sampleMeasuredState sampleRV 0 (0, 0)
    (50, 100) ⟨0, 0, 50, 10⟩ sampleER (by norm_num) ?_ ?_ <;>
    norm_num [refresh_view_layout, apply_geometry, layout_render,
      rebuild_needed, render_phase, do_rebuild, coverage_ok,
      sampleMeasuredState, sampleRV, sampleER, sampleOptions, sampleLines10,
      accumulate_lines, List.replicate, min_def, Option.some_ne_none,
      Prod.ext_iff]

set_option maxHeartbeats 2000000 in
/-- Witness for C8: re-attaching the already-rendered sample slot and laying
it out again rebuilds the window with a brand-new texture. -/
theorem reattach_forces_rebuild_witness :
    (refresh_view_layout (refresh_view_attrs sampleRenderedState sampleRV).1
        (refresh_view_attrs sampleRenderedState sampleRV).2 0 (0, 0) (50, 100)
        ⟨0, 0, 50, 10⟩ sampleER).rebuilt = true ∧
      (refresh_view_layout (refresh_view_attrs sampleRenderedState sampleRV).1
        (refresh_view_attrs sampleRenderedState sampleRV).2 0 (0, 0) (50, 100)
        ⟨0, 0, 50, 10⟩ sampleER).rendered = true ∧
      (refresh_view_layout (refresh_view_attrs sampleRenderedState sampleRV).1
        (refresh_view_attrs sampleRenderedState sampleRV).2 0 (0, 0) (50, 100)
        ⟨0, 0, 50, 10⟩ sampleER).state.texture.isSome = true ∧
      (refresh_view_layout (refresh_view_attrs sampleRenderedState sampleRV).1
        (refresh_view_attrs sampleRenderedState sampleRV).2 0 (0, 0) (50, 100)
        ⟨0, 0, 50, 10⟩ sampleER).state.texture ≠ sampleRenderedState.texture ∧
      (refresh_view_layout (refresh_view_attrs sampleRenderedState sampleRV).1
        (refresh_view_attrs sampleRenderedState sampleRV).2 0 (0, 0) (50, 100)
        ⟨0, 0, 50, 10⟩ sampleER).state.lines_pos.isSome = true := by
  refine reattach_forces_rebuild sampleRenderedState sampleRV 0 (0, 0) (50, 100)
    ⟨0, 0, 50, 10⟩ sampleER ?_ ?_ ?_
  · intro k hk
    have hk' : (some 0 : Option ℕ) = some k := hk
    injection hk' with hk2
    show k < 1
    omega
  · norm_num [refresh_view_layout, refresh_view_attrs, apply_geometry,
      layout_render, rebuild_needed, render_phase, do_rebuild, coverage_ok,
      sampleRenderedState, sampleMeasuredState, sampleRV, sampleER,
      sampleOptions, sampleLines10, accumulate_lines, List.replicate,
      min_def, Option.some_ne_none, Prod.ext_iff]
  · norm_num [refresh_view_layout, refresh_view_attrs, apply_geometry,
      layout_render, rebuild_needed, render_phase, do_rebuild, coverage_ok,
      sampleRenderedState, sampleMeasuredState, sampleRV, sampleER,
      sampleOptions, sampleLines10, accumulate_lines, List.replicate,
      min_def, Option.some_ne_none, Prod.ext_iff]
